import Mathlib

/-!
# Verification of the holdings analytics backend

Shallow embedding of `backend/main.py`, `backend/models.py` and
`backend/schemas.py` of the `holdings` repository.

Modelling choices:
* Python `datetime` instants are integers counting microseconds from the
  epoch; a calendar `date` is its day index, and
  `datetime.combine(d, min.time()) = d * dayUs`,
  `datetime.combine(d, max.time()) = d * dayUs + (dayUs - 1)`.
  Python's `timedelta.days` is floor division by `dayUs` (`Int.fdiv`).
* SQL `Numeric` columns are `ℚ`; the store is a `List Holding`, and each
  SQLAlchemy statement of the handler is evaluated over that list with
  SQL semantics (`SUM` of an empty set is `NULL`, modelled as `Option`).
* `fastapi.HTTPException` is an error value `HTTPError`; the handler's
  `try ... except Exception` is explicit control flow on `Except`.
-/

/-- Microseconds in one day (`timedelta(days=1)`). -/
def dayUs : ℤ := 86400000000

/-- A raised `fastapi.HTTPException`: status code and detail string. -/
structure HTTPError where
  status : ℕ
  detail : String
deriving Repr, DecidableEq

/-- Embedding of `get_timeframe_dates` (`backend/main.py`).
`now` is `datetime.now()` in microseconds, `start_date`/`end_date` are the
optional `date` arguments as day indices.  A raised `HTTPException`
becomes `Except.error`. -/
def get_timeframe_dates (now : ℤ) (timeframe : Option String)
    (start_date end_date : Option ℤ) : Except HTTPError (ℤ × ℤ) :=
  match timeframe with
  | some tf =>
    if tf = "1D" then .ok (now - 1 * dayUs, now)
    else if tf = "1W" then .ok (now - 7 * dayUs, now)
    else if tf = "1M" then .ok (now - 30 * dayUs, now)
    else if tf = "3M" then .ok (now - 90 * dayUs, now)
    else if tf = "6M" then .ok (now - 180 * dayUs, now)
    else if tf = "1Y" then .ok (now - 365 * dayUs, now)
    else .error ⟨400, "Invalid timeframe shortcut"⟩
  | none =>
    match start_date, end_date with
    | some sd, some ed =>
      let start := sd * dayUs
      let stop := ed * dayUs + (dayUs - 1)
      if (stop - start).fdiv dayUs > 365 then
        .error ⟨400, "Date range cannot exceed 1 year"⟩
      else
        .ok (start, stop)
    | _, _ =>
      -- `if not start_date or not end_date`: default fallback, 1 month
      .ok (now - 30 * dayUs, now)

example : get_timeframe_dates 1000 (some "1D") none none
    = .ok (1000 - dayUs, 1000) := by norm_num [get_timeframe_dates]

example : get_timeframe_dates 1000 (some "2D") none none
    = .error ⟨400, "Invalid timeframe shortcut"⟩ := rfl

example : get_timeframe_dates 0 none (some 0) (some 366)
    = .error ⟨400, "Date range cannot exceed 1 year"⟩ := rfl

example : get_timeframe_dates 0 none (some 0) (some 365)
    = .ok (0, 365 * dayUs + (dayUs - 1)) := rfl

example : get_timeframe_dates 0 none (some 5) none = .ok (-30 * dayUs, 0) := rfl

/-- Embedding of the `Holding` ORM model (`backend/models.py`): `Numeric`
columns are `ℚ`, `trade_date` is a `DateTime` instant in microseconds. -/
structure Holding where
  id : ℕ
  broker_id : ℤ
  symbol : String
  quantity : ℚ
  turnover : ℚ
  volume : ℚ
  trade_date : ℤ
deriving Repr, DecidableEq

/-- SQL `col ILIKE '%pat%'`: case-insensitive substring match. -/
def ilike (pat col : String) : Bool :=
  decide (pat.toLower.toList <:+: col.toLower.toList)

/-- Python truthiness of `Optional[int]` (`if broker_id:`). -/
def truthyInt : Option ℤ → Bool
  | none => false
  | some b => b != 0

/-- Python truthiness of `Optional[str]` (`if symbol:`). -/
def truthyStr : Option String → Bool
  | none => false
  | some s => s != ""

/-- The shared filter predicate of `get_holdings` step 2: the conjunction
`and_(*filters)` used identically by the summary, chart, table and count
statements. -/
def holdingPred (start stop : ℤ) (broker_id : Option ℤ)
    (symbol : Option String) (h : Holding) : Bool :=
  decide (0 < h.quantity) && decide (start ≤ h.trade_date)
    && decide (h.trade_date ≤ stop)
    && (if truthyInt broker_id then h.broker_id == broker_id.getD 0 else true)
    && (if truthyStr symbol then ilike (symbol.getD "") h.symbol else true)

/-- The grouping / entity column: `Holding.broker_id` when
`group_by == "broker_id"`, else `Holding.symbol`. -/
def entityOf (group_by : String) (h : Holding) : ℤ ⊕ String :=
  if group_by = "broker_id" then .inl h.broker_id else .inr h.symbol

/-- SQL `SUM` over a result set: `NULL` (`none`) when the set is empty. -/
def sqlSum (xs : List ℚ) : Option ℚ :=
  if xs.isEmpty then none else some xs.sum

/-- Python `x or 0` applied to an optional SQL aggregate. -/
def orZero (x : Option ℚ) : ℚ := x.getD 0

/-- `func.date(trade_date)`: the calendar day index of an instant. -/
def dateOf (t : ℤ) : ℤ := t.fdiv dayUs

/-- The `Summary` response schema. -/
structure Summary where
  total_volume : ℚ
  total_turnover : ℚ
  active_entities : ℕ
deriving Repr, DecidableEq

/-- One row of the chart query (`func.date`, summed volume, turnover). -/
structure ChartItem where
  date : ℤ
  volume : ℚ
  turnover : ℚ
deriving Repr, DecidableEq

/-- One row of the grouped table query: the grouping-column value plus
`SUM(quantity)`, `SUM(turnover)`, `SUM(volume)`. -/
structure TableRow where
  key : ℤ ⊕ String
  quantity : ℚ
  turnover : ℚ
  volume : ℚ
deriving Repr, DecidableEq

/-- The `Pagination` response schema. -/
structure Pagination where
  limit : ℕ
  offset : ℕ
  total : ℕ
deriving Repr, DecidableEq

/-- The values assembled by `get_holdings` on its success path (step 7),
before pydantic response-model construction. -/
structure HoldingsResult where
  summary : Summary
  chart_data : List ChartItem
  table_data : List TableRow
  pagination : Pagination
deriving Repr, DecidableEq

/-- Summary statement (step 3): `SUM(volume)`, `SUM(turnover)`,
`COUNT(DISTINCT entity_col)` over the filtered rows, with `x or 0`
applied to the nullable sums. -/
def summaryOf (group_by : String) (matched : List Holding) : Summary :=
  { total_volume := orZero (sqlSum (matched.map Holding.volume))
    total_turnover := orZero (sqlSum (matched.map Holding.turnover))
    active_entities := ((matched.map (entityOf group_by)).dedup).length }

/-- Chart statement (step 4): group the filtered rows by calendar date,
sum `volume` and `turnover` per date, order ascending by date. -/
def chartOf (matched : List Holding) : List ChartItem :=
  (((matched.map (fun h => dateOf h.trade_date)).dedup).mergeSort
      (fun a b => decide (a ≤ b))).map fun d =>
    let rows := matched.filter (fun h => dateOf h.trade_date == d)
    { date := d
      volume := (rows.map Holding.volume).sum
      turnover := (rows.map Holding.turnover).sum }

/-- The grouped rows of the table statement (step 5) before ordering:
one row per distinct grouping-column value, with summed quantity,
turnover and volume. -/
def groupedRows (group_by : String) (matched : List Holding) : List TableRow :=
  ((matched.map (entityOf group_by)).dedup).map fun k =>
    let rows := matched.filter (fun h => entityOf group_by h == k)
    { key := k
      quantity := (rows.map Holding.quantity).sum
      turnover := (rows.map Holding.turnover).sum
      volume := (rows.map Holding.volume).sum }

/-- Comparator of `order_by(desc("quantity"))` on grouped rows. -/
def byDescQuantity (a b : TableRow) : Bool := decide (b.quantity ≤ a.quantity)

/-- Table statement (step 5): grouped rows ordered by descending summed
quantity, then `limit`/`offset` applied. -/
def tablePage (group_by : String) (limit offset : ℕ)
    (matched : List Holding) : List TableRow :=
  (((groupedRows group_by matched).mergeSort byDescQuantity).drop offset).take
    limit

/-- Count statement (step 6): `COUNT(DISTINCT group_col)` over the
filtered rows. -/
def totalCount (group_by : String) (matched : List Holding) : ℕ :=
  ((matched.map (entityOf group_by)).dedup).length

/-- The query parameters of `GET /api/holdings`. Dates are day indices,
`limit`/`offset` are naturals. -/
structure Params where
  broker_id : Option ℤ := none
  symbol : Option String := none
  start_date : Option ℤ := none
  end_date : Option ℤ := none
  timeframe : Option String := none
  group_by : String := "broker_id"
  limit : ℕ := 50
  offset : ℕ := 0
deriving Repr, DecidableEq

/-- Embedding of the `get_holdings` handler body (`backend/main.py`):
resolve the dates, filter the store with the shared predicate, run the
four statements, assemble the result.  The `except Exception` block
catches every exception raised inside the `try` — including the
`HTTPException(400)` from `get_timeframe_dates` — and raises
`HTTPException(500, "Internal server error")` instead.  The success
value is what step 7 passes to the pydantic response model; the
response-model construction itself is modelled separately. -/
def get_holdings (p : Params) (now : ℤ) (db : List Holding) :
    Except HTTPError HoldingsResult :=
  match get_timeframe_dates now p.timeframe p.start_date p.end_date with
  | .error _ => .error ⟨500, "Internal server error"⟩
  | .ok (start, stop) =>
    let matched := db.filter (holdingPred start stop p.broker_id p.symbol)
    .ok
      { summary := summaryOf p.group_by matched
        chart_data := chartOf matched
        table_data := tablePage p.group_by p.limit p.offset matched
        pagination :=
          { limit := p.limit, offset := p.offset
            total := totalCount p.group_by matched } }

/-- FastAPI `Query` validation of the endpoint's parameters: the
`regex` constraints on `timeframe` and `group_by` and the numeric
bounds on `limit` and `offset`.  A violation is rejected with HTTP 422
before the handler runs. -/
def paramsValid (p : Params) : Bool :=
  (match p.timeframe with
   | none => true
   | some tf => tf ∈ ["1D", "1W", "1M", "3M", "6M", "1Y"])
  && (p.group_by ∈ ["broker_id", "symbol"])
  && (1 ≤ p.limit) && (p.limit ≤ 1000)

/-- The observable endpoint: FastAPI parameter validation (HTTP 422 on
failure), then the handler. -/
def endpoint (p : Params) (now : ℤ) (db : List Holding) :
    Except HTTPError HoldingsResult :=
  if paramsValid p then get_holdings p now db
  else .error ⟨422, "Unprocessable Entity"⟩

/-! ## The response schemas of `backend/schemas.py` versus `backend/main.py`

`main.py` imports `ChartItem` from `backend.schemas` and constructs
`TableItem` and `HoldingsResponse` with keyword arguments; pydantic
rejects a construction that omits a required field (extra keyword
arguments are ignored). -/

/-- The class names defined in `backend/schemas.py`. -/
def schemas_defined : List String :=
  ["Summary", "TableItem", "AggregatedItem", "Pagination", "HoldingsResponse"]

/-- The names `backend/main.py` imports from `backend.schemas`. -/
def main_schema_imports : List String :=
  ["HoldingsResponse", "Summary", "ChartItem", "TableItem", "Pagination"]

/-- The required fields of `schemas.TableItem`. -/
def TableItem_required_fields : List String :=
  ["date", "broker_id", "symbol", "qty", "amount"]

/-- The required fields of `schemas.HoldingsResponse`. -/
def HoldingsResponse_required_fields : List String :=
  ["summary", "table_data", "aggregated_data", "pagination"]

/-- The keyword arguments `main.py` passes to `TableItem(**item_data)`
(step 5), depending on `group_by`. -/
def main_TableItem_kwargs (group_by : String) : List String :=
  ["quantity", "turnover", "volume",
   if group_by = "broker_id" then "broker_id" else "symbol"]

/-- The keyword arguments `main.py` passes to `HoldingsResponse(...)`
(step 7). -/
def main_HoldingsResponse_kwargs : List String :=
  ["summary", "chart_data", "table_data", "pagination"]

/-- Pydantic model construction succeeds iff every required field is
among the supplied keyword arguments. -/
def pydanticAccepts (required provided : List String) : Bool :=
  required.all fun f => provided.contains f

/-- C1: the claim — that a request passing date validation with
successful store reads yields a body with summary, chart_data,
table_data and pagination — fails on the code: `main.py` imports
`ChartItem`, which `schemas.py` does not define (the module cannot even
be imported), and the keyword arguments `main.py` supplies to
`HoldingsResponse` and to `TableItem` (for either `group_by` value)
lack required fields of the schemas, so pydantic construction raises
and the request ends in HTTP 500 instead of the claimed body. -/
theorem C1_response_schema_mismatch :
    ("ChartItem" ∈ main_schema_imports ∧ "ChartItem" ∉ schemas_defined)
    ∧ pydanticAccepts HoldingsResponse_required_fields
        main_HoldingsResponse_kwargs = false
    ∧ pydanticAccepts TableItem_required_fields
        (main_TableItem_kwargs "broker_id") = false
    ∧ pydanticAccepts TableItem_required_fields
        (main_TableItem_kwargs "symbol") = false := by
  refine ⟨⟨?_, ?_⟩, rfl, rfl, rfl⟩ <;> decide

/-- C2: the claim — 400 for an over-long explicit range, 500 only for
unhandled store failures — fails on the code.  At `start_date = day 0`,
`end_date = day 366` the resolver does raise `HTTPException(400, ...)`,
but the handler's `except Exception` catches it and the endpoint
answers 500; a malformed `timeframe` token is rejected by the `Query`
regex with 422 before the handler runs. -/
theorem C2_error_status_divergence :
    get_timeframe_dates 0 none (some 0) (some 366)
      = .error ⟨400, "Date range cannot exceed 1 year"⟩
    ∧ get_holdings { start_date := some 0, end_date := some 366 } 0 []
      = .error ⟨500, "Internal server error"⟩
    ∧ endpoint { timeframe := some "2D" } 0 []
      = .error ⟨422, "Unprocessable Entity"⟩ :=
  ⟨rfl, rfl, rfl⟩

/-- C3 counterexample: with only `start_date = day 5` given (no
timeframe, `now` at day 1000), the resolver does not return the
single-day window of day 5; it returns the default trailing 30-day
window ending at `now`. -/
theorem C3_counterexample :
    get_timeframe_dates (1000 * dayUs) none (some 5) none
      = .ok (970 * dayUs, 1000 * dayUs)
    ∧ (970 * dayUs, 1000 * dayUs) ≠ (5 * dayUs, 5 * dayUs + (dayUs - 1)) := by
  refine ⟨by unfold get_timeframe_dates; norm_num [dayUs], by decide⟩

/-- C3 amended: when no timeframe is given and at least one of
`start_date` / `end_date` is missing, the resolver ignores the given
bound and falls back to the default trailing 30-day window ending at
`now`. -/
theorem C3_amended_default_window (now sd ed : ℤ) :
    get_timeframe_dates now none (some sd) none = .ok (now - 30 * dayUs, now)
    ∧ get_timeframe_dates now none none (some ed) = .ok (now - 30 * dayUs, now)
    ∧ get_timeframe_dates now none none none = .ok (now - 30 * dayUs, now) :=
  ⟨rfl, rfl, rfl⟩

/-- C5: with both explicit dates and no timeframe, the resolver fails
(with the 400 range error) exactly when the dates are more than 365
days apart; in particular day 0 to day 365 passes and day 0 to day 366
fails. -/
theorem C5_range_cap_boundary :
    (∀ now sd ed : ℤ,
      get_timeframe_dates now none (some sd) (some ed)
          = .error ⟨400, "Date range cannot exceed 1 year"⟩
        ↔ 365 < ed - sd)
    ∧ get_timeframe_dates 0 none (some 0) (some 365)
        = .ok (0, 365 * dayUs + (dayUs - 1))
    ∧ get_timeframe_dates 0 none (some 0) (some 366)
        = .error ⟨400, "Date range cannot exceed 1 year"⟩ := by
  refine ⟨fun now sd ed => ?_, rfl, rfl⟩
  have hday : (0 : ℤ) ≤ dayUs := by norm_num [dayUs]
  have hkey : (ed * dayUs + (dayUs - 1) - sd * dayUs).fdiv dayUs = ed - sd := by
    rw [show ed * dayUs + (dayUs - 1) - sd * dayUs
          = (dayUs - 1) + (ed - sd) * dayUs by ring]
    rw [Int.fdiv_eq_ediv _ hday,
      Int.add_mul_ediv_right _ _ (by norm_num [dayUs] : dayUs ≠ 0),
      Int.ediv_eq_zero_of_lt (by norm_num [dayUs]) (by norm_num [dayUs])]
    ring
  unfold get_timeframe_dates
  simp only [hkey]
  by_cases h : 365 < ed - sd <;> simp [h]

/-- C6: each valid timeframe token resolves to a range of exactly its
fixed duration (1, 7, 30, 90, 180, 365 days) whose end is `now`
(hence not after `now`), regardless of any explicit dates supplied. -/
theorem C6_timeframe_durations (now : ℤ) (sd ed : Option ℤ)
    (tf : String) (dur : ℤ)
    (h : (tf, dur) ∈ [("1D", (1 : ℤ)), ("1W", 7), ("1M", 30), ("3M", 90),
      ("6M", 180), ("1Y", 365)]) :
    ∃ s e, get_timeframe_dates now (some tf) sd ed = .ok (s, e)
      ∧ e - s = dur * dayUs ∧ e ≤ now := by
  fin_cases h <;> exact ⟨_, now, rfl, by ring, le_refl now⟩

theorem C6_timeframe_durations_witness :
    (("1W", (7 : ℤ)) ∈ [("1D", (1 : ℤ)), ("1W", 7), ("1M", 30), ("3M", 90),
      ("6M", 180), ("1Y", 365)])
    ∧ ∃ s e, get_timeframe_dates 0 (some "1W") none none = .ok (s, e)
        ∧ e - s = 7 * dayUs ∧ e ≤ 0 :=
  ⟨by decide, C6_timeframe_durations 0 none none "1W" 7 (by decide)⟩

/-- C7 counterexample: with explicit `start_date = day 10`,
`end_date = day 5` the resolver returns (the range length `-5` does not
exceed the cap) but the returned pair has `start > end`, violating the
claimed invariant `start_instant ≤ end_instant`. -/
theorem C7_counterexample :
    get_timeframe_dates 0 none (some 10) (some 5)
      = .ok (10 * dayUs, 5 * dayUs + (dayUs - 1))
    ∧ ¬ (10 * dayUs ≤ 5 * dayUs + (dayUs - 1)) :=
  ⟨rfl, by decide⟩

/-- C7 amended: every successful resolution returns
`start_instant ≤ end_instant` provided that, when both explicit dates
are given, `start_date ≤ end_date`; the timeframe and default branches
satisfy it unconditionally. -/
theorem C7_ok_range_wellformed (now : ℤ) (tf : Option String)
    (sdo edo : Option ℤ) (s e : ℤ)
    (hmono : ∀ sd ed : ℤ, sdo = some sd → edo = some ed → sd ≤ ed)
    (hok : get_timeframe_dates now tf sdo edo = .ok (s, e)) : s ≤ e := by
  have hday : (0 : ℤ) ≤ dayUs := by norm_num [dayUs]
  have hday1 : (1 : ℤ) ≤ dayUs := by norm_num [dayUs]
  cases tf with
  | some tf =>
    unfold get_timeframe_dates at hok
    dsimp only at hok
    split_ifs at hok <;>
      (injection hok with hok; injection hok with hs he; subst hs; subst he;
       linarith [hday])
  | none =>
    cases sdo with
    | none =>
      cases edo <;>
        · unfold get_timeframe_dates at hok
          dsimp only at hok
          injection hok with hok; injection hok with hs he
          subst hs; subst he; linarith
    | some sd =>
      cases edo with
      | none =>
        unfold get_timeframe_dates at hok
        dsimp only at hok
        injection hok with hok; injection hok with hs he
        subst hs; subst he; linarith
      | some ed =>
        have hle : sd ≤ ed := hmono sd ed rfl rfl
        unfold get_timeframe_dates at hok
        dsimp only at hok
        split_ifs at hok
        injection hok with hok; injection hok with hs he
        subst hs; subst he
        have : sd * dayUs ≤ ed * dayUs :=
          mul_le_mul_of_nonneg_right hle hday
        linarith [this, hday1]

theorem C7_ok_range_wellformed_witness :
    (∀ sd ed : ℤ, (some 3 : Option ℤ) = some sd →
      (some 4 : Option ℤ) = some ed → sd ≤ ed)
    ∧ 3 * dayUs ≤ 4 * dayUs + (dayUs - 1) :=
  ⟨fun sd ed h1 h2 => by injection h1 with h1; injection h2 with h2; omega,
   C7_ok_range_wellformed 0 none (some 3) (some 4) (3 * dayUs)
     (4 * dayUs + (dayUs - 1))
     (fun sd ed h1 h2 => by injection h1 with h1; injection h2 with h2; omega)
     rfl⟩

/-- The filtered record set shared by all four statements of the
handler: `db.filter (and_(*filters))`. -/
def matchedOf (p : Params) (start stop : ℤ) (db : List Holding) : List Holding :=
  db.filter (holdingPred start stop p.broker_id p.symbol)

/-- When the resolver succeeds, the handler returns the assembled
result of the four statements over the shared filtered set. -/
theorem get_holdings_ok (p : Params) (now : ℤ) (db : List Holding)
    (start stop : ℤ)
    (hres : get_timeframe_dates now p.timeframe p.start_date p.end_date
      = .ok (start, stop)) :
    get_holdings p now db = .ok
      { summary := summaryOf p.group_by (matchedOf p start stop db)
        chart_data := chartOf (matchedOf p start stop db)
        table_data :=
          tablePage p.group_by p.limit p.offset (matchedOf p start stop db)
        pagination :=
          { limit := p.limit, offset := p.offset
            total := totalCount p.group_by (matchedOf p start stop db) } } := by
  unfold get_holdings matchedOf
  rw [hres]

/-- `x or 0` applied to a SQL sum is the plain sum (zero when empty). -/
theorem orZero_sqlSum (xs : List ℚ) : orZero (sqlSum xs) = xs.sum := by
  cases xs <;> simp [sqlSum, orZero]

/-- A matching record for the C4 counterexample: its `volume` column
(2) differs from its `quantity` column (1). -/
def hC4 : Holding :=
  { id := 1, broker_id := 1, symbol := "A", quantity := 1, turnover := 10,
    volume := 2, trade_date := 0 }

/-- Request parameters selecting exactly day 0. -/
def pC4 : Params := { start_date := some 0, end_date := some 0 }

unseal Rat.add Nat.gcd List.merge List.mergeSort in
/-- C4 counterexample: on a store holding one matching record with
`quantity = 1` and `volume = 2`, the summary's `total_volume` is 2 —
the code sums the `volume` column (`func.sum(Holding.volume)`), not
`SUM(quantity) = 1` as the claim states. -/
theorem C4_counterexample :
    get_holdings pC4 0 [hC4] = .ok
      { summary :=
          { total_volume := 2, total_turnover := 10, active_entities := 1 }
        chart_data := [{ date := 0, volume := 2, turnover := 10 }]
        table_data :=
          [{ key := .inl 1, quantity := 1, turnover := 10, volume := 2 }]
        pagination := { limit := 50, offset := 0, total := 1 } }
    ∧ (([hC4].filter (holdingPred 0 (dayUs - 1) none none)).map
        Holding.quantity).sum = 1
    ∧ (2 : ℚ) ≠ 1 :=
  ⟨rfl, rfl, by norm_num⟩

/-- C4 amended: the summary's `total_volume` is `SUM(volume)` (not
`SUM(quantity)`) over the matching records, `total_turnover` is
`SUM(turnover)`, `active_entities` is the count of distinct
grouping-column values, and when no rows match both sums are zero
rather than null. -/
theorem C4_amended_summary (p : Params) (now : ℤ) (db : List Holding)
    (start stop : ℤ)
    (hres : get_timeframe_dates now p.timeframe p.start_date p.end_date
      = .ok (start, stop)) :
    ∃ r, get_holdings p now db = .ok r
      ∧ r.summary.total_volume
          = ((matchedOf p start stop db).map Holding.volume).sum
      ∧ r.summary.total_turnover
          = ((matchedOf p start stop db).map Holding.turnover).sum
      ∧ r.summary.active_entities
          = (((matchedOf p start stop db).map (entityOf p.group_by)).dedup).length
      ∧ (matchedOf p start stop db = [] →
          r.summary.total_volume = 0 ∧ r.summary.total_turnover = 0) := by
  refine ⟨_, get_holdings_ok p now db start stop hres,
    orZero_sqlSum _, orZero_sqlSum _, rfl, fun hemp => ?_⟩
  simp [summaryOf, hemp, sqlSum, orZero]

theorem C4_amended_summary_witness :
    get_timeframe_dates 0 pC4.timeframe pC4.start_date pC4.end_date
      = .ok (0, dayUs - 1)
    ∧ ∃ r, get_holdings pC4 0 [hC4] = .ok r
        ∧ r.summary.total_volume
            = ((matchedOf pC4 0 (dayUs - 1) [hC4]).map Holding.volume).sum
        ∧ r.summary.total_turnover
            = ((matchedOf pC4 0 (dayUs - 1) [hC4]).map Holding.turnover).sum
        ∧ r.summary.active_entities
            = (((matchedOf pC4 0 (dayUs - 1) [hC4]).map
                (entityOf pC4.group_by)).dedup).length
        ∧ (matchedOf pC4 0 (dayUs - 1) [hC4] = [] →
            r.summary.total_volume = 0 ∧ r.summary.total_turnover = 0) :=
  ⟨rfl, C4_amended_summary pC4 0 [hC4] 0 (dayUs - 1) rfl⟩

/-- C8: a record with `quantity ≤ 0` contributes to nothing the
handler computes — prepending such a record to the store leaves the
whole response (summary, chart, table page, pagination total)
unchanged, because every statement shares the `Holding.quantity > 0`
filter. -/
theorem C8_nonpositive_quantity_excluded (p : Params) (now : ℤ)
    (r : Holding) (db : List Holding) (h : r.quantity ≤ 0) :
    get_holdings p now (r :: db) = get_holdings p now db := by
  have h0 : ¬ (0 < r.quantity) := not_lt.mpr h
  have hpred : ∀ start stop,
      holdingPred start stop p.broker_id p.symbol r = false := by
    intro start stop
    simp [holdingPred, h0]
  unfold get_holdings
  cases get_timeframe_dates now p.timeframe p.start_date p.end_date with
  | error e => rfl
  | ok se =>
    obtain ⟨start, stop⟩ := se
    dsimp only
    rw [List.filter_cons_of_neg]
    simp [hpred start stop]

/-- A cancelled record (negative quantity) for the C8 witness. -/
def hC8 : Holding :=
  { id := 2, broker_id := 3, symbol := "B", quantity := -1, turnover := 5,
    volume := 5, trade_date := 0 }

/-- Default request parameters. -/
def pDefault : Params := {}

theorem C8_nonpositive_quantity_excluded_witness :
    hC8.quantity ≤ 0
    ∧ get_holdings pDefault 0 [hC8] = get_holdings pDefault 0 [] :=
  ⟨by norm_num [hC8],
   C8_nonpositive_quantity_excluded pDefault 0 hC8 [] (by norm_num [hC8])⟩

/-- C9: in grouped mode the table page is one row per distinct
grouping-column value with summed quantity and turnover, ordered by
descending summed quantity and sliced by limit/offset; the pagination
total counts the distinct grouping values before slicing, and an
offset at or past the total yields an empty page with the total
unchanged. -/
theorem C9_grouped_page (p : Params) (now : ℤ) (db : List Holding)
    (r : HoldingsResult) (start stop : ℤ)
    (hres : get_timeframe_dates now p.timeframe p.start_date p.end_date
      = .ok (start, stop))
    (hok : get_holdings p now db = .ok r) :
    (groupedRows p.group_by (matchedOf p start stop db)).map TableRow.key
        = ((matchedOf p start stop db).map (entityOf p.group_by)).dedup
    ∧ ((groupedRows p.group_by (matchedOf p start stop db)).map
        TableRow.key).Nodup
    ∧ (∀ row ∈ groupedRows p.group_by (matchedOf p start stop db),
        row.quantity = (((matchedOf p start stop db).filter
          (fun h => entityOf p.group_by h == row.key)).map
            Holding.quantity).sum
        ∧ row.turnover = (((matchedOf p start stop db).filter
          (fun h => entityOf p.group_by h == row.key)).map
            Holding.turnover).sum)
    ∧ ((groupedRows p.group_by (matchedOf p start stop db)).mergeSort
        byDescQuantity).Perm (groupedRows p.group_by (matchedOf p start stop db))
    ∧ List.Pairwise (fun a b : TableRow => b.quantity ≤ a.quantity)
        ((groupedRows p.group_by (matchedOf p start stop db)).mergeSort
          byDescQuantity)
    ∧ r.table_data = (((groupedRows p.group_by
        (matchedOf p start stop db)).mergeSort byDescQuantity).drop
          p.offset).take p.limit
    ∧ r.pagination.total
        = ((matchedOf p start stop db).map (entityOf p.group_by)).dedup.length
    ∧ (r.pagination.total ≤ p.offset → r.table_data = []) := by
  have hr := get_holdings_ok p now db start stop hres
  rw [hok] at hr
  injection hr with hr
  subst hr
  have hkeys : (groupedRows p.group_by (matchedOf p start stop db)).map
      TableRow.key = ((matchedOf p start stop db).map (entityOf p.group_by)).dedup := by
    simp [groupedRows, List.map_map, Function.comp_def]
  refine ⟨hkeys, hkeys ▸ List.nodup_dedup _, ?_, List.mergeSort_perm _ _,
    ?_, rfl, rfl, ?_⟩
  · intro row hrow
    obtain ⟨k, hk, rfl⟩ := List.mem_map.1 hrow
    exact ⟨rfl, rfl⟩
  · refine (List.sorted_mergeSort ?_ ?_ _).imp fun hab => of_decide_eq_true hab
    · intro a b c hab hbc
      simp only [byDescQuantity, decide_eq_true_eq] at *
      exact le_trans hbc hab
    · intro a b
      simp only [byDescQuantity, Bool.or_eq_true, decide_eq_true_eq]
      exact le_total _ _
  · intro hle
    have hlen : ((groupedRows p.group_by (matchedOf p start stop db)).mergeSort
        byDescQuantity).length ≤ p.offset := by
      simpa [groupedRows, totalCount] using hle
    show ((((groupedRows p.group_by (matchedOf p start stop db)).mergeSort
      byDescQuantity).drop p.offset).take p.limit) = []
    rw [List.drop_eq_nil_of_le hlen]
    exact List.take_nil

/-- Request parameters selecting day 0 for the C9 witness. -/
def pC9 : Params := { start_date := some 0, end_date := some 0 }

/-- A two-broker store for the C9 witness. -/
def dbC9 : List Holding :=
  [{ id := 1, broker_id := 1, symbol := "A", quantity := 5, turnover := 50,
     volume := 5, trade_date := 0 },
   { id := 2, broker_id := 2, symbol := "B", quantity := 10, turnover := 100,
     volume := 10, trade_date := 100 }]

/-- The handler's output on `pC9` / `dbC9`. -/
def rC9 : HoldingsResult :=
  { summary := summaryOf pC9.group_by (matchedOf pC9 0 (dayUs - 1) dbC9)
    chart_data := chartOf (matchedOf pC9 0 (dayUs - 1) dbC9)
    table_data := tablePage pC9.group_by pC9.limit pC9.offset
      (matchedOf pC9 0 (dayUs - 1) dbC9)
    pagination :=
      { limit := pC9.limit
        offset := pC9.offset
        total := totalCount pC9.group_by (matchedOf pC9 0 (dayUs - 1) dbC9) } }

/-- The resolver's output on `pC9`. -/
theorem resolveC9 : get_timeframe_dates 0 pC9.timeframe pC9.start_date
    pC9.end_date = .ok (0, dayUs - 1) := rfl

/-- The handler's output on `pC9` / `dbC9` is `rC9`. -/
theorem holdingsC9 : get_holdings pC9 0 dbC9 = .ok rC9 :=
  get_holdings_ok pC9 0 dbC9 0 (dayUs - 1) resolveC9

unseal Rat.add Nat.gcd List.merge List.mergeSort in
theorem C9_grouped_page_witness :
    get_timeframe_dates 0 pC9.timeframe pC9.start_date pC9.end_date
      = .ok (0, dayUs - 1)
    ∧ get_holdings pC9 0 dbC9 = .ok rC9
    ∧ rC9.pagination.total
        = ((matchedOf pC9 0 (dayUs - 1) dbC9).map (entityOf pC9.group_by)).dedup.length
    ∧ (rC9.pagination.total ≤ pC9.offset → rC9.table_data = [])
    ∧ rC9.pagination.total = 2
    ∧ rC9.table_data =
        [{ key := .inl 2, quantity := 10, turnover := 100, volume := 10 },
         { key := .inl 1, quantity := 5, turnover := 50, volume := 5 }] :=
  ⟨resolveC9, holdingsC9,
   (C9_grouped_page pC9 0 dbC9 rC9 0 (dayUs - 1) resolveC9
     holdingsC9).2.2.2.2.2.2.1,
   (C9_grouped_page pC9 0 dbC9 rC9 0 (dayUs - 1) resolveC9
     holdingsC9).2.2.2.2.2.2.2,
   rfl, rfl⟩

/-- C10: the handler tests the optional filters for truthiness, not
presence — a request with `broker_id = 0`, or with `symbol = ""`,
produces exactly the same endpoint result as a request omitting that
parameter, so `broker_id = 0` never acts as an exact-match filter. -/
theorem C10_falsy_filters_dropped (p : Params) (now : ℤ) (db : List Holding) :
    endpoint { p with broker_id := some 0 } now db
      = endpoint { p with broker_id := none } now db
    ∧ endpoint { p with symbol := some "" } now db
      = endpoint { p with symbol := none } now db := by
  have hb : ∀ start stop, holdingPred start stop (some 0) p.symbol
      = holdingPred start stop none p.symbol := by
    intro start stop
    funext h
    simp [holdingPred, truthyInt]
  have hs : ∀ start stop, holdingPred start stop p.broker_id (some "")
      = holdingPred start stop p.broker_id none := by
    intro start stop
    funext h
    simp [holdingPred, truthyStr]
  have hg1 : get_holdings { p with broker_id := some 0 } now db
      = get_holdings { p with broker_id := none } now db := by
    unfold get_holdings
    dsimp only
    cases get_timeframe_dates now p.timeframe p.start_date p.end_date with
    | error e => rfl
    | ok se =>
      obtain ⟨start, stop⟩ := se
      dsimp only
      rw [hb start stop]
  have hg2 : get_holdings { p with symbol := some "" } now db
      = get_holdings { p with symbol := none } now db := by
    unfold get_holdings
    dsimp only
    cases get_timeframe_dates now p.timeframe p.start_date p.end_date with
    | error e => rfl
    | ok se =>
      obtain ⟨start, stop⟩ := se
      dsimp only
      rw [hs start stop]
  have hv1 : paramsValid { p with broker_id := some 0 }
      = paramsValid { p with broker_id := none } := rfl
  have hv2 : paramsValid { p with symbol := some "" }
      = paramsValid { p with symbol := none } := rfl
  refine ⟨?_, ?_⟩
  · unfold endpoint
    rw [hv1, hg1]
  · unfold endpoint
    rw [hv2, hg2]
